import Mathlib

set_option maxRecDepth 20000

/-!
Shallow embedding of the rexec remote-execution library (NGRsoftlab/rexec),
covering the SSH client (`ssh` package: client run engine, session limiter,
close, retrying dialer, PTY heuristic, SCP wire protocol), the exit-code
mapper (`utils` package), the configuration builder (`ssh/config.go`), and
the file-content abstraction (`connection.go`).

Go values are embedded as follows: strings are Lean `String` / `List Char`,
machine integers are `Int` or `Nat`, `error` results are `Option String` or
`Except String`, and the outcomes of I/O steps (dial attempts, pipe
creation, remote wait) are supplied as explicit environment records so the
control flow of each Go function can be reproduced as a pure function.
-/

namespace Rexec

/-! ## Go string helpers (strings.TrimSpace, %04o, %d formatting) -/

/-- ASCII whitespace recognised by Go `unicode.IsSpace` on the ASCII range:
space, tab, newline, vertical tab, form feed, carriage return. -/
def goIsSpace (c : Char) : Bool :=
  c = ' ' || c = '\t' || c = '\n' || c = Char.ofNat 11 || c = Char.ofNat 12 || c = '\r'

/-- `strings.TrimSpace` over a character list: drop whitespace on both ends. -/
def goTrimSpaceList (s : List Char) : List Char :=
  ((s.dropWhile goIsSpace).reverse.dropWhile goIsSpace).reverse

/-- `strings.TrimSpace` on `String`. -/
def goTrimSpace (s : String) : String :=
  String.mk (goTrimSpaceList s.data)

/-- Octal digit character for a value in 0..7. -/
def octChar : Nat → Char
  | 0 => '0' | 1 => '1' | 2 => '2' | 3 => '3'
  | 4 => '4' | 5 => '5' | 6 => '6' | 7 => '7'
  | _ => '?'

/-- Numeric value of an octal digit character. -/
def octCharVal : Char → Nat
  | '0' => 0 | '1' => 1 | '2' => 2 | '3' => 3
  | '4' => 4 | '5' => 5 | '6' => 6 | '7' => 7
  | _ => 0

/-- Big-endian octal digits of `n` (fuel-based so the kernel can evaluate it;
fuel `n` always suffices since `n / 8 < n` for `n ≥ 8`). -/
def octDigitsGo : Nat → Nat → List Char
  | 0, n => [octChar (n % 8)]
  | fuel + 1, n => if n < 8 then [octChar n] else octDigitsGo fuel (n / 8) ++ [octChar (n % 8)]

/-- Big-endian octal digit characters of `n` (at least one digit). -/
def octDigits (n : Nat) : List Char := octDigitsGo n n

/-- Go `fmt.Sprintf("%04o", n)`: octal, zero-padded on the left to width 4. -/
def goOct4 (n : Nat) : List Char :=
  List.replicate (4 - (octDigits n).length) '0' ++ octDigits n

/-- Read back a big-endian octal digit string. -/
def ofOctChars (l : List Char) : Nat :=
  l.foldl (fun a c => 8 * a + octCharVal c) 0

/-- Big-endian decimal digits of a natural number (fuel-based). -/
def decDigitsGo : Nat → Nat → List Char
  | 0, n => [Char.ofNat (48 + n % 10)]
  | fuel + 1, n =>
    if n < 10 then [Char.ofNat (48 + n)]
    else decDigitsGo fuel (n / 10) ++ [Char.ofNat (48 + n % 10)]

/-- Decimal digit characters of `n`. -/
def decDigits (n : Nat) : List Char := decDigitsGo n n

/-- Go `fmt.Sprintf("%d", z)` for an `int64`, as a character list. -/
def goIntDec (z : Int) : List Char :=
  if z < 0 then '-' :: decDigits z.natAbs else decDigits z.natAbs

/-! ## utils/errors.go : ExitCodeMapper -/

namespace utils

/-- The literal map built by `NewDefaultExitCodeMapper` in `utils/errors.go`. -/
def defaultExitCodes : Int → Option String
  | 1 => some "general error"
  | 2 => some "invalid usage of shell builtins"
  | 126 => some "permission denied (cannot execute)"
  | 127 => some "command not found"
  | 128 => some "invalid exit argument"
  | 64 => some "command line usage error"
  | 65 => some "data format error"
  | 66 => some "cannot open input file"
  | 67 => some "address unknown"
  | 68 => some "host name unknown"
  | 69 => some "service unavailable"
  | 70 => some "internal software error"
  | 71 => some "system error"
  | 72 => some "critical OS file missing"
  | 73 => some "cannot create output file"
  | 74 => some "input/output error"
  | 75 => some "temporary failure, please retry"
  | 76 => some "remote protocol error"
  | 77 => some "permission denied"
  | 78 => some "configuration error"
  | 129 => some "hangup (SIGHUP)"
  | 130 => some "script terminated by Control-C"
  | 131 => some "quit (SIGQUIT)"
  | 132 => some "illegal instruction (SIGILL)"
  | 133 => some "trace/breakpoint trap (SIGTRAP)"
  | 134 => some "abort (SIGABRT)"
  | 135 => some "bus error (SIGBUS)"
  | 136 => some "floating point exception (SIGFPE)"
  | 137 => some "process killed (SIGKILL)"
  | 138 => some "user defined signal 1 (SIGUSR1)"
  | 139 => some "segmentation fault (SIGSEGV)"
  | 140 => some "user defined signal 2 (SIGUSR2)"
  | 141 => some "broken pipe (SIGPIPE)"
  | 142 => some "alarm clock (SIGALRM)"
  | 143 => some "terminated by signal (SIGTERM)"
  | 255 => some "ssh connection error or no exit status"
  | _ => none

/-- `maxSignal` constant from `utils/errors.go`. -/
def maxSignal : Int := 64

/-- `ExitCodeMapper.Lookup`: predefined map first, then the
`killed by signal N` band for `128 < code ≤ 128+maxSignal`, else `exit <code>`. -/
def Lookup (code : Int) : String :=
  match defaultExitCodes code with
  | some msg => msg
  | none =>
    if code > 128 && code ≤ 128 + maxSignal then
      "killed by signal " ++ String.mk (goIntDec (code - 128))
    else
      "exit " ++ String.mk (goIntDec code)

end utils

/-! ## ssh/config.go : Config, NewConfig and the configuration options -/

namespace ssh

/-- Constants from `ssh/config.go`. Durations are nanoseconds (`time.Duration`). -/
def defaultMaxSessions : Int := 5
/-- Default `retryCount` (`ssh/config.go`). -/
def defaultRetryCount : Int := 3
/-- Default dial timeout: 30s in nanoseconds. -/
def defaultTimeout : Int := 30 * 1000000000
/-- Default retry delay: 5s in nanoseconds. -/
def defaultRetryDelay : Int := 5 * 1000000000
/-- Default keepalive interval: 30s in nanoseconds. -/
def defaultKeepAlive : Int := 30 * 1000000000

/-- `ssh.Config` (connection settings), auth and the known-hosts path omitted:
no claim depends on them, and applying their options does not touch the
fields below. -/
structure Config where
  Host : String
  Port : Int
  User : String
  timeout : Int
  retryCount : Int
  retryInterval : Int
  keepAlive : Int
  sudoPassword : String
  envVars : List (String × String)
  remoteWorkdir : String
  maxSessions : Int
  deriving Repr, DecidableEq

/-- The configuration options applied by `NewConfig` (each is a
`func(*Config) error`), as a closed syntax so theorems can quantify over
every sequence of option applications. -/
inductive ConfigOption where
  | withPort (p : Int)
  | withTimeout (t : Int)
  | withRetry (count interval : Int)
  | withKeepAlive (k : Int)
  | withSudoPassword (pw : String)
  | withEnvVars (vars : List (String × String))
  | withWorkdir (path : String)
  | withMaxSessions (n : Int)
  deriving Repr, DecidableEq

/-- Apply one configuration option, mirroring the bodies in `ssh/config.go`.
`withMaxSessions` — Modelled from the spec: `WithMaxSessions` is referenced by
the repository's tests and README but its definition is not under `src/`; the
spec bounds max-sessions to 1–6, and the config tests expect values 0, −1 and
10 to be rejected with an error and 3 to be accepted, so the option errors on
any value outside 1–6 and stores the value otherwise. -/
def applyOption (cfg : Config) : ConfigOption → Except String Config
  | .withPort p =>
    if p < 0 || p > 65535 then .error "port must be 1-65535"
    else .ok { cfg with Port := p }
  | .withTimeout t =>
    if t ≤ 0 then .error "timeout must be >0"
    else .ok { cfg with timeout := t }
  | .withRetry count interval =>
    if count < 0 || interval < 0 then .error "retry count or interval must be >0"
    else .ok { cfg with retryCount := count, retryInterval := interval }
  | .withKeepAlive k =>
    if k ≤ 0 then .error "keepalive must be >0"
    else .ok { cfg with keepAlive := k }
  | .withSudoPassword pw =>
    if pw = "" then .error "password must not be empty"
    else .ok { cfg with sudoPassword := pw }
  | .withEnvVars vars => .ok { cfg with envVars := cfg.envVars ++ vars }
  | .withWorkdir path =>
    if path = "" then .error "workdir path cannot be empty"
    else .ok { cfg with remoteWorkdir := path }
  | .withMaxSessions n =>
    if n < 1 || n > 6 then .error "max sessions must be 1-6"
    else .ok { cfg with maxSessions := n }

/-- `Config.validate`: user, host and port range are required. -/
def validate (c : Config) : Except String Unit :=
  if c.User.length = 0 then .error "user required"
  else if c.Host.length = 0 then .error "host required"
  else if c.Port ≤ 0 || c.Port > 65535 then .error "port must be between 1 and 65535"
  else .ok ()

/-- `NewConfig`: build the defaults, apply each option in order (failing fast
with `config option failed`), then validate. -/
def NewConfig (user host : String) (port : Int) (opts : List ConfigOption) :
    Except String Config :=
  let cfg : Config :=
    { Host := host, Port := port, User := user,
      timeout := defaultTimeout, retryCount := defaultRetryCount,
      retryInterval := defaultRetryDelay, keepAlive := defaultKeepAlive,
      sudoPassword := "", envVars := [], remoteWorkdir := "",
      maxSessions := defaultMaxSessions }
  match opts.foldlM (fun c o => (applyOption c o).mapError
      (fun e => "config option failed: " ++ e)) cfg with
  | .error e => .error e
  | .ok c =>
    match validate c with
    | .error e => .error ("config validation failed: " ++ e)
    | .ok _ => .ok c

/-! ## NewClient's dial loop (ssh client, `NewClient`) -/

/-- Outcome of the retrying dial loop of `NewClient`: how many `gossh.Dial`
calls were made, how many `time.Sleep(cfg.retryInterval)` calls ran, and the
final result. -/
structure DialOut where
  attempts : Nat
  sleeps : Nat
  result : Except String Unit
  deriving Repr

/-- One pass of `for i := 0; i <= retryCount; i++ { dial; if ok break;
sleep }`, starting at attempt index `i` with `fuel` further iterations
allowed after this one. A failed attempt always sleeps before the loop
re-checks its condition — including the last one. -/
def dialGo (dial : Nat → Except String Unit) : Nat → Nat → DialOut
  | i, 0 =>
    match dial i with
    | .ok u => ⟨1, 0, .ok u⟩
    | .error e => ⟨1, 1, .error e⟩
  | i, fuel + 1 =>
    match dial i with
    | .ok u => ⟨1, 0, .ok u⟩
    | .error _ =>
      let rest := dialGo dial (i + 1) fuel
      ⟨rest.attempts + 1, rest.sleeps + 1, rest.result⟩

/-- The dial phase of `NewClient` for a non-negative `retryCount` (config
validation and `WithRetry` keep `retryCount ≥ 0`): run the loop, and wrap a
final failure as `dial failed: <last error>`. -/
def NewClientDial (dial : Nat → Except String Unit) (retryCount : Nat) : DialOut :=
  let out := dialGo dial 0 retryCount
  { out with result := out.result.mapError (fun e => "dial failed: " ++ e) }

/-! ## Client.Close (ssh client) -/

/-- Observable state touched by `Client.Close`: whether `closeOnce` has fired,
how many times `close(cl.keepAliveChan)` ran, and how many times
`cl.client.Close()` (the underlying connection close) ran. -/
structure CloseState where
  onceDone : Bool
  keepAliveCloses : Nat
  underlyingCloses : Nat
  deriving Repr, DecidableEq

/-- The state before any `Close` call. -/
def CloseState.init : CloseState := ⟨false, 0, 0⟩

/-- One `Client.Close` call: `closeOnce.Do(close(keepAliveChan))`, then always
`return cl.client.Close()`. `connCloseErr k` is the error returned by the
`k`-th underlying close (0-based). -/
def clientClose (connCloseErr : Nat → Option String) (s : CloseState) :
    CloseState × Option String :=
  let s1 := if s.onceDone then s
    else { s with onceDone := true, keepAliveCloses := s.keepAliveCloses + 1 }
  ({ s1 with underlyingCloses := s1.underlyingCloses + 1 },
   connCloseErr s1.underlyingCloses)

/-- `n` successive `Close` calls from a state. -/
def closeN (connCloseErr : Nat → Option String) : Nat → CloseState → CloseState
  | 0, s => s
  | n + 1, s => closeN connCloseErr n (clientClose connCloseErr s).1

/-! ## requiresPTY (ssh client) -/

/-- The keyword list of `Client.requiresPTY`. -/
def ptyKeywords : List String := ["sudo", "passwd", "su", "ssh", "docker login", "openssl"]

/-- `strings.Contains(s, sub)`: plain substring containment. -/
def goContains (s sub : String) : Bool := decide (sub.data <:+: s.data)

/-- `Client.requiresPTY`: true iff the rendered command contains any keyword. -/
def requiresPTY (shellCmd : String) : Bool :=
  ptyKeywords.any (fun keyword => goContains shellCmd keyword)

end ssh

/-! ## parser.RawResult -/

/-- `parser.RawResult` (duration omitted: wall-clock time is not modelled). -/
structure RawResult where
  Command : String
  Stdout : String
  Stderr : String
  ExitCode : Int
  Err : Option String
  deriving Repr, DecidableEq

/-- `parser.NewRawResult`. -/
def NewRawResult (shellCmd : String) : RawResult :=
  { Command := shellCmd, Stdout := "", Stderr := "", ExitCode := 0, Err := none }

/-! ## ssh Client.Run (both drafts in the ssh client source) -/

namespace ssh

/-- Go `%q` escaping for the characters that occur in the modelled strings. -/
def goQuoteChar (c : Char) : List Char :=
  if c = '"' then ['\\', '"']
  else if c = '\\' then ['\\', '\\']
  else if c = '\n' then ['\\', 'n']
  else if c = '\t' then ['\\', 't']
  else [c]

/-- Go `fmt.Sprintf("%q", s)`. -/
def goQuote (s : String) : String :=
  "\"" ++ String.mk (s.data.map goQuoteChar).flatten ++ "\""

/-- Result of `sess.Wait()` as observed by Run's final select. -/
inductive WaitOutcome where
  | cancelled
  | exited (code : Int) (errText : String)
  | failed (errText : String)
  | success
  deriving Repr, DecidableEq

/-- The outcomes of every I/O step a single `Client.Run` performs, supplied
as an environment so Run's control flow is a pure function of it. -/
structure RunEnv where
  /-- `cl == nil || cl.client == nil` -/
  clientNil : Bool
  /-- `cmd.String()` -/
  cmdStr : String
  /-- `runCfg.env` after `newRunConfig` merged the client and per-call
  variables, in Go's (unspecified) iteration order -/
  cfgEnv : List (String × String)
  /-- text of `ctx.Err()` when the context is observed cancelled -/
  ctxErrText : String
  /-- the acquisition select takes the `ctx.Done()` branch -/
  ctxCancelledAtAcquire : Bool
  /-- error from `cl.client.NewSession()` -/
  newSessionErr : Option String
  /-- error from `sess.RequestPty` (consulted only when a PTY is requested) -/
  ptyErr : Option String
  /-- error from `sess.StdoutPipe()` -/
  stdoutPipeErr : Option String
  /-- error from `sess.StderrPipe()` -/
  stderrPipeErr : Option String
  /-- error from `sess.StdinPipe()` -/
  stdinPipeErr : Option String
  /-- error from `sess.Start(cmdStr)` -/
  startErr : Option String
  /-- which branch the final select takes, and `sess.Wait()`'s result -/
  waitOutcome : WaitOutcome
  /-- `runCfg.bufOut.String()` after both drainers joined -/
  stdoutCaptured : String
  /-- `runCfg.bufErr.String()` after both drainers joined -/
  stderrCaptured : String
  /-- `none` when `cmd.Parser == nil || dst == nil`; otherwise the parser's
  error result -/
  parserOutcome : Option (Option String)

/-- What one Run call did: how many session-limiter slots it acquired
(`sessionLimiter <- struct{}{}`) and released (`<-sessionLimiter`), whether
`RequestPty` was issued, and the returned `(*RawResult, error)` pair. -/
structure RunOut where
  acquires : Nat
  releases : Nat
  ptyRequested : Bool
  result : Option RawResult
  err : Option String
  deriving Repr, DecidableEq

/-- Step 8 of Run: `cmdStr = fmt.Sprintf("export %s=%q; %s", k, v, cmdStr)`
for each environment pair. -/
def exportEnv (cfgEnv : List (String × String)) (cmdStr : String) : String :=
  cfgEnv.foldl (fun acc kv => "export " ++ kv.1 ++ "=" ++ goQuote kv.2 ++ "; " ++ acc) cmdStr

/-- Step 14 of Run: invoke the parser when present; a parser error overwrites
`result.Err` as `parse error: <err>`. -/
def applyParser (outcome : Option (Option String)) (r : RawResult) : RawResult :=
  match outcome with
  | some (some pe) => { r with Err := some ("parse error: " ++ pe) }
  | _ => r

/-- The first `Client.Run` draft in the ssh client source: it opens sessions
through the `Session` wrapper whose `Close` both closes the channel and
performs one limiter release, and it registers `defer sess.Close()` — so
every return after a successful open contributes one release, and its
cancellation branch calls `sess.Close()` once more explicitly. -/
def runV1 (env : RunEnv) : RunOut :=
  if env.clientNil then ⟨0, 0, false, none, some "session not open"⟩ else
  let result0 := NewRawResult env.cmdStr
  let usePTY := requiresPTY env.cmdStr
  if env.ctxCancelledAtAcquire then
    ⟨0, 0, false, some result0, some ("open session: " ++ env.ctxErrText)⟩
  else match env.newSessionErr with
  | some e => ⟨1, 1, false, some result0, some ("open session: " ++ e)⟩
  | none =>
    match (if usePTY then env.ptyErr else none) with
    | some e => ⟨1, 1, usePTY, some result0, some ("request PTY: " ++ e)⟩
    | none =>
    match env.stdoutPipeErr with
    | some e => ⟨1, 1, usePTY, some result0, some ("get stdout pipe: " ++ e)⟩
    | none =>
    match env.stderrPipeErr with
    | some e => ⟨1, 1, usePTY, some result0, some ("get stderr pipe: " ++ e)⟩
    | none =>
    match env.stdinPipeErr with
    | some e => ⟨1, 1, usePTY, some result0, some ("get stdin pipe: " ++ e)⟩
    | none =>
    let _cmdStr2 := exportEnv env.cfgEnv env.cmdStr
    match env.startErr with
    | some e => ⟨1, 1, usePTY, some result0, some ("start command: " ++ e)⟩
    | none =>
    match env.waitOutcome with
    | .cancelled =>
      -- explicit `sess.Close()` plus the deferred `sess.Close()`:
      -- the limiter is received from twice for this one acquisition
      ⟨1, 2, usePTY,
       some { result0 with ExitCode := -1, Err := some env.ctxErrText },
       some env.ctxErrText⟩
    | .exited code errText =>
      let msg := "remote command failed (" ++ utils.Lookup code ++ "): "
        ++ env.stderrCaptured ++ ": " ++ errText
      let r := applyParser env.parserOutcome
        { result0 with
            Stdout := env.stdoutCaptured, Stderr := env.stderrCaptured,
            ExitCode := code, Err := some msg }
      ⟨1, 1, usePTY, some r, r.Err⟩
    | .failed errText =>
      let r := applyParser env.parserOutcome
        { result0 with
            Stdout := env.stdoutCaptured, Stderr := env.stderrCaptured,
            ExitCode := -1, Err := some errText }
      ⟨1, 1, usePTY, some r, r.Err⟩
    | .success =>
      let r := applyParser env.parserOutcome
        { result0 with
            Stdout := env.stdoutCaptured, Stderr := env.stderrCaptured,
            ExitCode := 0, Err := none }
      ⟨1, 1, usePTY, some r, r.Err⟩

/-- The second `Client.Run` draft in the ssh client source: it acquires the
limiter inline, releases it through its own `defer func() { <-cl.sessionLimiter }()`
(so exactly once per acquisition on every path), but returns a nil result both
on the closed-client check and when the context is already cancelled during
limiter acquisition. -/
def runV2 (env : RunEnv) : RunOut :=
  if env.clientNil then ⟨0, 0, false, none, some "session not open"⟩ else
  let result0 := NewRawResult env.cmdStr
  let usePTY := requiresPTY env.cmdStr
  if env.ctxCancelledAtAcquire then
    ⟨0, 0, false, none, some env.ctxErrText⟩
  else match env.newSessionErr with
  | some e => ⟨1, 1, false, some result0, some ("open session: " ++ e)⟩
  | none =>
    match (if usePTY then env.ptyErr else none) with
    | some e => ⟨1, 1, usePTY, some result0, some ("request PTY: " ++ e)⟩
    | none =>
    match env.stdoutPipeErr with
    | some e => ⟨1, 1, usePTY, some result0, some ("get stdout pipe: " ++ e)⟩
    | none =>
    match env.stderrPipeErr with
    | some e => ⟨1, 1, usePTY, some result0, some ("get stderr pipe: " ++ e)⟩
    | none =>
    match env.stdinPipeErr with
    | some e => ⟨1, 1, usePTY, some result0, some ("get stdin pipe: " ++ e)⟩
    | none =>
    let _cmdStr2 := exportEnv env.cfgEnv env.cmdStr
    match env.startErr with
    | some e => ⟨1, 1, usePTY, some result0, some ("start command: " ++ e)⟩
    | none =>
    match env.waitOutcome with
    | .cancelled =>
      ⟨1, 1, usePTY,
       some { result0 with ExitCode := -1, Err := some env.ctxErrText },
       some env.ctxErrText⟩
    | .exited code errText =>
      let msg := "remote command failed (" ++ utils.Lookup code ++ "): "
        ++ env.stderrCaptured ++ ": " ++ errText
      let r := applyParser env.parserOutcome
        { result0 with
            Stdout := env.stdoutCaptured, Stderr := env.stderrCaptured,
            ExitCode := code, Err := some msg }
      ⟨1, 1, usePTY, some r, r.Err⟩
    | .failed errText =>
      let r := applyParser env.parserOutcome
        { result0 with
            Stdout := env.stdoutCaptured, Stderr := env.stderrCaptured,
            ExitCode := -1, Err := some errText }
      ⟨1, 1, usePTY, some r, r.Err⟩
    | .success =>
      let r := applyParser env.parserOutcome
        { result0 with
            Stdout := env.stdoutCaptured, Stderr := env.stderrCaptured,
            ExitCode := 0, Err := none }
      ⟨1, 1, usePTY, some r, r.Err⟩

end ssh

/-! ## connection.go : FileSpec, FileContent -/

/-- Abstract model of an `io.Reader` supplied in `FileContent.Reader`: whether
it also implements `io.Seeker`, its current and end positions as reported by
`Seek`, the bytes readable from the current position, and an error raised by
the `Seek` calls if any. -/
structure ReaderModel where
  seekable : Bool
  cur : Int
  endPos : Int
  bytes : List Char
  seekErr : Option String
  deriving Repr, DecidableEq

/-- `rexec.FileContent`: in Go exactly the three fields `Reader`, `Data`,
`SourcePath`; a nil `Reader` interface is `none`. -/
structure FileContent where
  reader : Option ReaderModel
  data : List Char
  sourcePath : String
  deriving Repr, DecidableEq

/-- `rexec.FileSpec`; `Content` is a pointer, so a nil content is `none`. -/
structure FileSpec where
  TargetDir : String
  Filename : String
  Mode : Nat
  FolderMode : Nat
  Content : Option FileContent
  deriving Repr, DecidableEq

/-- `FileSpec.Validate` (the method receiver is a pointer, so the `t == nil`
check is modelled by an `Option FileSpec` argument). -/
def Validate : Option FileSpec → Except String Unit
  | none => .error "file specification empty"
  | some t =>
    if t.Filename = "" then .error "filename required"
    else if t.TargetDir = "" then .error "target directory required"
    else match t.Content with
    | none => .error "file content required"
    | some c =>
      if c.data.length = 0 && c.sourcePath = "" && c.reader.isNone then
        .error "file content empty"
      else .ok ()

/-- Which arm of the `switch` in `FileContent.ReaderAndSize` produced the
stream. -/
inductive ContentSource where
  | fromData
  | fromPath
  | fromReader
  deriving Repr, DecidableEq

/-- `FileContent.ReaderAndSize`. `fs path` is the filesystem oracle: `some
bytes` when `os.Open` and `Stat` both succeed (the stat size is the byte
count), `none` when opening or statting fails. Returns which source was
chosen, the reported size, and the bytes the returned reader will yield. -/
def ReaderAndSize (fs : String → Option (List Char)) :
    Option FileContent → Except String (ContentSource × Int × List Char)
  | none => .error "no file content provided"
  | some t =>
    if t.data.length > 0 then .ok (.fromData, (t.data.length : Int), t.data)
    else if t.sourcePath ≠ "" then
      match fs t.sourcePath with
      | some contents => .ok (.fromPath, (contents.length : Int), contents)
      | none => .error "open source file"
    else match t.reader with
    | some r =>
      if r.seekable then
        match r.seekErr with
        | some e => .error ("seek curent source file: " ++ e)
        | none => .ok (.fromReader, r.endPos - r.cur, r.bytes)
      else .error "reader is not seekable"
    | none => .error "no file content provided"

/-! ## ssh/scp.go : SCP sender wire protocol -/

namespace ssh

/-- `ReadString('\n')` on the remaining input: everything up to and including
the first newline (everything, if there is none). -/
def takeLine : List Char → List Char
  | [] => []
  | c :: rest => if c = '\n' then [c] else c :: takeLine rest

/-- `readAck` from `ssh/scp.go`: fail if the context is cancelled, read one
status byte, treat zero as ACK, and on a non-zero byte read the rest of the
line and surface it trimmed. Returns the unread remainder of the stream. -/
def readAck (ctxErr : Option String) (input : List Char) : Except String (List Char) :=
  match ctxErr with
  | some e => .error e
  | none =>
    match input with
    | [] => .error "read ack: EOF"
    | b :: rest =>
      if b = Char.ofNat 0 then .ok rest
      else .error ("scp error: " ++ goTrimSpace (String.mk (takeLine rest)))

/-- The file header written by `sendFile`:
`fmt.Sprintf("C%04o %d %s\n", spec.Mode.Perm(), size, spec.Filename)`.
`Mode.Perm()` keeps the nine permission bits (`Mode & 0o777`), i.e. `Mode % 512`. -/
def scpHeader (mode : Nat) (size : Int) (filename : String) : List Char :=
  'C' :: (goOct4 (mode % 512) ++ [' '] ++ goIntDec size ++ [' '] ++ filename.data ++ ['\n'])

/-- `sendFile` from `ssh/scp.go`: resolve the content source, write the
header, await an ACK, stream the data, write the `\x00` end-of-file byte,
and await the final ACK. Returns the full byte trace written to the remote
stdin together with the unread remainder of the ACK stream. `ctxErr` is the
context's state during the transfer (`copyWithContext`'s per-chunk check and
`readAck`'s check observe the same context). -/
def sendFile (fs : String → Option (List Char)) (ctxErr : Option String)
    (spec : FileSpec) (ack : List Char) : Except String (List Char × List Char) :=
  match ReaderAndSize fs spec.Content with
  | .error e => .error e
  | .ok (_src, size, contentBytes) =>
    let header := scpHeader spec.Mode size spec.Filename
    match readAck ctxErr ack with
    | .error e => .error ("ACK after header: " ++ e)
    | .ok ack1 =>
      match ctxErr with
      | some e => .error ("send file data: " ++ e)
      | none =>
        match readAck ctxErr ack1 with
        | .error e => .error ("final ACK: " ++ e)
        | .ok ack2 => .ok (header ++ contentBytes ++ [Char.ofNat 0], ack2)

end ssh

/-! ## local/client.go : stderr trimming in runAndCapture's error message -/

/-- The stderr post-processing of the local engine's `runAndCapture`
(`local/client.go`): `strings.TrimSpace`, then truncation to 200 characters
with a `...` suffix. The SSH engine's claim under test says the same
treatment is applied there. -/
def localTrimTrunc (s : String) : String :=
  let t := goTrimSpace s
  if t.length > 200 then String.mk (t.data.take 200) ++ "..." else t

/-! ## Concrete environments used by counterexamples and witnesses -/

/-- A Run in which the session opens, the command starts, and the context is
then cancelled while waiting: the failing input for the slot-release
invariant. -/
def cancelledWaitEnv : ssh.RunEnv :=
  { clientNil := false, cmdStr := "sleep 100", cfgEnv := [],
    ctxErrText := "context canceled", ctxCancelledAtAcquire := false,
    newSessionErr := none, ptyErr := none, stdoutPipeErr := none,
    stderrPipeErr := none, stdinPipeErr := none, startErr := none,
    waitOutcome := .cancelled, stdoutCaptured := "", stderrCaptured := "",
    parserOutcome := none }

/-- A Run against a closed (nil) client. -/
def nilClientEnv : ssh.RunEnv :=
  { cancelledWaitEnv with clientNil := true }

/-- A Run whose remote process exits with status 1 and whose captured stderr
carries surrounding whitespace. -/
def exitWithStderrEnv : ssh.RunEnv :=
  { cancelledWaitEnv with
    cmdStr := "false", waitOutcome := .exited 1 "Process exited with status 1",
    stderrCaptured := " x " }

/-- A Run whose context is already cancelled when the session limiter is
being acquired. -/
def cancelledAcquireEnv : ssh.RunEnv :=
  { cancelledWaitEnv with ctxCancelledAtAcquire := true }

/-- A cancelled-wait Run that had already captured output on both pipes. -/
def cancelledWithOutputEnv : ssh.RunEnv :=
  { cancelledWaitEnv with stdoutCaptured := "out", stderrCaptured := "boom" }

/-- A concrete upload spec with in-memory content, for witnesses. -/
def scpSpecExample : FileSpec :=
  { TargetDir := "/tmp/rexec", Filename := "hello.txt", Mode := 420, FolderMode := 493,
    Content := some { reader := none, data := ['h', 'i'], sourcePath := "" } }

/-- A spec whose content sets both the in-memory data and a source path. -/
def dualContentSpec : FileSpec :=
  { TargetDir := "/tmp/rexec", Filename := "hello.txt", Mode := 420, FolderMode := 493,
    Content := some { reader := none, data := ['h', 'i'], sourcePath := "/src/hello.txt" } }

end Rexec

/-! ## Theorems settling the claims -/

namespace Rexec

/-- C3, counterexample: 130 lies in (128, 192] yet `Lookup` does not return
`killed by signal 2`, because the predefined table takes priority. -/
theorem C3_counterexample :
    utils.Lookup 130 = "script terminated by Control-C" ∧
    utils.Lookup 130 ≠ "killed by signal 2" := by
  exact ⟨by decide, by decide⟩

/-- C3 (amended): for every exit code in the default table, `Lookup` returns
the table entry; for every `k` with `128 < k ≤ 192` that is not in the table,
`Lookup k` is `"killed by signal "` followed by `k − 128`. -/
theorem C3_lookup_amended :
    (∀ k msg, utils.defaultExitCodes k = some msg → utils.Lookup k = msg) ∧
    (∀ k : Int, 128 < k → k ≤ 192 → utils.defaultExitCodes k = none →
      utils.Lookup k = "killed by signal " ++ String.mk (goIntDec (k - 128))) := by
  constructor
  · intro k msg h
    simp [utils.Lookup, h]
  · intro k h1 h2 h3
    simp [utils.Lookup, h3, utils.maxSignal, h1, h2]

/-- C3 witness: the amended theorem applied at codes 137 (in the table) and
150 (in the signal band, not in the table). -/
theorem C3_lookup_amended_witness :
    utils.Lookup 137 = "process killed (SIGKILL)" ∧
    utils.Lookup 150 = "killed by signal 22" := by
  refine ⟨C3_lookup_amended.1 137 _ (by decide), ?_⟩
  have h := C3_lookup_amended.2 150 (by decide) (by decide) (by decide)
  rw [h]
  decide

/-- C4, counterexample: two `Close` calls perform two underlying connection
closes (the `sync.Once` guards only the keepalive signal), so n calls do not
have the observable effect of one. -/
theorem C4_counterexample :
    (ssh.closeN (fun _ => none) 2 ssh.CloseState.init).underlyingCloses = 2 ∧
    (ssh.closeN (fun _ => none) 1 ssh.CloseState.init).underlyingCloses = 1 ∧
    (ssh.closeN (fun _ => none) 2 ssh.CloseState.init).keepAliveCloses = 1 := by
  exact ⟨rfl, rfl, rfl⟩

theorem closeN_from_closed (connCloseErr : Nat → Option String) (k : Nat) :
    ∀ n : Nat, ssh.closeN connCloseErr n ⟨true, 1, k⟩ = ⟨true, 1, k + n⟩ := by
  intro n
  induction n generalizing k with
  | zero => rfl
  | succ m ih =>
    show ssh.closeN connCloseErr m _ = _
    rw [show (ssh.clientClose connCloseErr ⟨true, 1, k⟩).1 = ⟨true, 1, k + 1⟩ from rfl]
    rw [ih (k + 1)]
    congr 1
    omega

/-- C4 (amended): calling `Close` n ≥ 1 times delivers the keepalive close
signal exactly once, but invokes the underlying connection close on every
call (n times, not once), each call returning that close's error. -/
theorem C4_close_amended (connCloseErr : Nat → Option String) (n : Nat) (h : 1 ≤ n) :
    (ssh.closeN connCloseErr n ssh.CloseState.init).keepAliveCloses = 1 ∧
    (ssh.closeN connCloseErr n ssh.CloseState.init).underlyingCloses = n ∧
    (ssh.clientClose connCloseErr (ssh.closeN connCloseErr n ssh.CloseState.init)).2
      = connCloseErr n := by
  obtain ⟨m, rfl⟩ : ∃ m, n = m + 1 := ⟨n - 1, by omega⟩
  have h1 : ssh.closeN connCloseErr (m + 1) ssh.CloseState.init
      = ⟨true, 1, m + 1⟩ := by
    show ssh.closeN connCloseErr m (ssh.clientClose connCloseErr ssh.CloseState.init).1 = _
    rw [show (ssh.clientClose connCloseErr ssh.CloseState.init).1 = ⟨true, 1, 1⟩ from rfl]
    rw [closeN_from_closed connCloseErr 1 m]
    congr 1
    omega
  exact ⟨by rw [h1], by rw [h1], by rw [h1]; rfl⟩

/-- C4 witness: the amended theorem at n = 3. -/
theorem C4_close_amended_witness :
    (ssh.closeN (fun _ => none) 3 ssh.CloseState.init).keepAliveCloses = 1 ∧
    (ssh.closeN (fun _ => none) 3 ssh.CloseState.init).underlyingCloses = 3 ∧
    (ssh.clientClose (fun _ => none) (ssh.closeN (fun _ => none) 3 ssh.CloseState.init)).2
      = (fun _ => none : Nat → Option String) 3 :=
  C4_close_amended (fun _ => none) 3 (by decide)

/-- C7, counterexample: with `retryCount = 0` and a failing dial, the loop
still sleeps once — after the final failed attempt — although the claim says
the sleep happens only between attempts (hence zero sleeps for one attempt). -/
theorem C7_counterexample :
    (ssh.NewClientDial (fun _ => .error "connection refused") 0).attempts = 1 ∧
    (ssh.NewClientDial (fun _ => .error "connection refused") 0).sleeps = 1 ∧
    (ssh.NewClientDial (fun _ => .error "connection refused") 0).sleeps ≠
      (ssh.NewClientDial (fun _ => .error "connection refused") 0).attempts - 1 := by
  exact ⟨rfl, rfl, by decide⟩

theorem dialGo_all_fail (dial : Nat → Except String Unit) (e : Nat → String) :
    ∀ fuel i, (∀ j, j ≤ fuel → dial (i + j) = .error (e (i + j))) →
      ssh.dialGo dial i fuel = ⟨fuel + 1, fuel + 1, .error (e (i + fuel))⟩ := by
  intro fuel
  induction fuel with
  | zero =>
    intro i h
    have h0 := h 0 (by omega)
    simp only [Nat.add_zero] at h0
    simp [ssh.dialGo, h0]
  | succ m ih =>
    intro i h
    have h0 := h 0 (by omega)
    simp only [Nat.add_zero] at h0
    have hrest := ih (i + 1) (fun j hj => by
      have := h (j + 1) (by omega)
      rw [show i + 1 + j = i + (j + 1) by omega]
      exact this)
    simp [ssh.dialGo, h0, hrest]
    congr 1
    omega

/-- C7 (amended): when every dial attempt fails, `NewClient` makes exactly
`retryCount + 1` attempts, sleeps `retryInterval` after every failed attempt
— including the last one, so `retryCount + 1` sleeps rather than
`retryCount` — and returns the last attempt's error wrapped as
`dial failed: <err>`; `retryCount = 0` still yields exactly one attempt. -/
theorem C7_dial_amended (dial : Nat → Except String Unit) (e : Nat → String)
    (retryCount : Nat) (h : ∀ j, j ≤ retryCount → dial j = .error (e j)) :
    ssh.NewClientDial dial retryCount
      = ⟨retryCount + 1, retryCount + 1, .error ("dial failed: " ++ e retryCount)⟩ := by
  have hg := dialGo_all_fail dial e retryCount 0 (fun j hj => by
    have := h j hj
    simpa using this)
  unfold ssh.NewClientDial
  rw [hg]
  simp [Except.mapError]

/-- C7 witness: the amended theorem at `retryCount = 2` with a concrete
always-failing dial. -/
theorem C7_dial_amended_witness :
    ssh.NewClientDial (fun _ => .error "refused") 2
      = ⟨3, 3, .error ("dial failed: " ++ (fun _ : Nat => "refused") 2)⟩ :=
  C7_dial_amended (fun _ => .error "refused") (fun _ => "refused") 2
    (fun _j _hj => rfl)

/-- C5, counterexample: a config built with no options carries
`maxSessions = 5` (the source default), not the claimed default of 1. -/
theorem C5_counterexample :
    (ssh.NewConfig "u" "h" 22 []).toOption.map ssh.Config.maxSessions = some 5 ∧
    (ssh.NewConfig "u" "h" 22 []).toOption.map ssh.Config.maxSessions ≠ some 1 := by
  exact ⟨rfl, by decide⟩

theorem applyOption_maxSessions (c c' : ssh.Config) (o : ssh.ConfigOption)
    (h : ssh.applyOption c o = .ok c')
    (hc : 1 ≤ c.maxSessions ∧ c.maxSessions ≤ 6) :
    1 ≤ c'.maxSessions ∧ c'.maxSessions ≤ 6 := by
  cases o <;> simp only [ssh.applyOption] at h
  case withEnvVars vars =>
    cases h
    exact hc
  case withMaxSessions n =>
    split at h
    · exact absurd h (by simp)
    · cases h
      rename_i hcond
      simp only [Bool.or_eq_true, decide_eq_true_eq, not_or] at hcond
      exact ⟨by show (1:Int) ≤ n; omega, by show n ≤ (6:Int); omega⟩
  all_goals
    split at h
    · exact absurd h (by simp)
    · cases h
      exact hc

theorem foldlM_maxSessions (opts : List ssh.ConfigOption) :
    ∀ c c' : ssh.Config,
      opts.foldlM (fun c o => (ssh.applyOption c o).mapError
        (fun e => "config option failed: " ++ e)) c = .ok c' →
      1 ≤ c.maxSessions ∧ c.maxSessions ≤ 6 →
      1 ≤ c'.maxSessions ∧ c'.maxSessions ≤ 6 := by
  induction opts with
  | nil =>
    intro c c' h hc
    simp only [List.foldlM_nil] at h
    cases h
    exact hc
  | cons o os ih =>
    intro c c' h hc
    rw [List.foldlM_cons] at h
    cases ha : ssh.applyOption c o with
    | error e =>
      rw [ha] at h
      exact Except.noConfusion h
    | ok c1 =>
      rw [ha] at h
      exact ih c1 c' h (applyOption_maxSessions c c1 o ha hc)

/-- C5 (amended): `NewConfig`'s default max-sessions is 5 (not 1), and any
caller-supplied value outside 1–6 is rejected by the max-sessions option, so
every successfully built config carries a max-sessions value within 1–6. -/
theorem C5_maxSessions_amended (user host : String) (port : Int)
    (opts : List ssh.ConfigOption) (m : Int)
    (h : (ssh.NewConfig user host port opts).toOption.map ssh.Config.maxSessions
      = some m) :
    (1 ≤ m ∧ m ≤ 6) ∧ (opts = [] → m = 5) := by
  cases hN : ssh.NewConfig user host port opts with
  | error e =>
    rw [hN] at h
    exact Option.noConfusion h
  | ok cfg =>
    rw [hN] at h
    simp only [Except.toOption, Option.map_some] at h
    cases h
    unfold ssh.NewConfig at hN
    simp only at hN
    revert hN
    cases hF : List.foldlM (fun c o => (ssh.applyOption c o).mapError
        (fun e => "config option failed: " ++ e))
        ({ Host := host, Port := port, User := user,
           timeout := ssh.defaultTimeout, retryCount := ssh.defaultRetryCount,
           retryInterval := ssh.defaultRetryDelay, keepAlive := ssh.defaultKeepAlive,
           sudoPassword := "", envVars := [], remoteWorkdir := "",
           maxSessions := ssh.defaultMaxSessions } : ssh.Config) opts with
    | error e =>
      intro hN
      exact Except.noConfusion hN
    | ok c =>
      intro hN
      have hbounds := foldlM_maxSessions opts _ c hF
        ⟨by show (1:Int) ≤ ssh.defaultMaxSessions; decide,
         by show ssh.defaultMaxSessions ≤ (6:Int); decide⟩
      have hN2 : (match ssh.validate c with
          | Except.error e =>
            (Except.error ("config validation failed: " ++ e) : Except String ssh.Config)
          | Except.ok _ => Except.ok c) = Except.ok cfg := hN
      clear hN
      revert hN2
      cases ssh.validate c with
      | error e2 => intro hN2; exact Except.noConfusion hN2
      | ok u =>
        intro hN2
        cases hN2
        refine ⟨hbounds, ?_⟩
        rintro rfl
        simp only [List.foldlM_nil] at hF
        cases hF
        rfl

/-- C5 witness: the amended theorem at a config built with
`WithMaxSessions 2`. -/
theorem C5_maxSessions_amended_witness :
    ((1:Int) ≤ 2 ∧ (2:Int) ≤ 6) ∧
    ([ssh.ConfigOption.withMaxSessions 2] = ([] : List ssh.ConfigOption) → (2:Int) = 5) :=
  C5_maxSessions_amended "u" "h" 22 [ssh.ConfigOption.withMaxSessions 2] 2 (by rfl)

/-- C1: at the failing input — a Run whose session opened and whose context
is cancelled while waiting — the first Run draft acquires one limiter slot
but performs two limiter releases (the explicit `sess.Close()` plus the
deferred one), while the second draft releases exactly once. -/
theorem C1_cancel_double_release :
    (ssh.runV1 cancelledWaitEnv).acquires = 1 ∧
    (ssh.runV1 cancelledWaitEnv).releases = 2 ∧
    (ssh.runV2 cancelledWaitEnv).acquires = 1 ∧
    (ssh.runV2 cancelledWaitEnv).releases = 1 := by
  exact ⟨by decide, by decide, by decide, by decide⟩

/-- C2, counterexample: three failing paths refute the claim as stated —
the closed-client early reject returns a nil RawResult (in both Run drafts),
the second draft returns nil when the context is already cancelled during
limiter acquisition, and the cancellation-during-wait path returns a result
whose Stdout/Stderr are empty even though output had been captured. -/
theorem C2_counterexample :
    ((ssh.runV1 nilClientEnv).err = some "session not open" ∧
      (ssh.runV1 nilClientEnv).result = none ∧
      (ssh.runV2 nilClientEnv).result = none) ∧
    ((ssh.runV2 cancelledAcquireEnv).err = some "context canceled" ∧
      (ssh.runV2 cancelledAcquireEnv).result = none) ∧
    ((ssh.runV1 cancelledWithOutputEnv).err = some "context canceled" ∧
      cancelledWithOutputEnv.stdoutCaptured = "out" ∧
      (ssh.runV1 cancelledWithOutputEnv).result.map RawResult.Stdout = some "" ∧
      (ssh.runV1 cancelledWithOutputEnv).result.map RawResult.Stderr = some "") := by
  exact ⟨⟨by decide, by decide, by decide⟩, ⟨by decide, by decide⟩,
    ⟨by decide, by decide, by decide, by decide⟩⟩

theorem runV1_completed_fills (env : ssh.RunEnv) (h : env.clientNil = false)
    (hc : env.ctxCancelledAtAcquire = false) (hn : env.newSessionErr = none)
    (hp : env.ptyErr = none) (h1 : env.stdoutPipeErr = none)
    (h2 : env.stderrPipeErr = none) (h3 : env.stdinPipeErr = none)
    (hs : env.startErr = none) (hw : env.waitOutcome ≠ ssh.WaitOutcome.cancelled) :
    ∀ r, (ssh.runV1 env).result = some r →
      r.Stdout = env.stdoutCaptured ∧ r.Stderr = env.stderrCaptured := by
  intro r hr
  unfold ssh.runV1 at hr
  simp only [h, hc, hn, hp, h1, h2, h3, hs, Bool.false_eq_true, if_false, ite_self,
    ssh.applyParser] at hr
  revert hr
  cases hwo : env.waitOutcome with
  | cancelled => exact absurd hwo hw
  | exited code et =>
    cases env.parserOutcome with
    | none => intro hr; cases hr; exact ⟨rfl, rfl⟩
    | some po => cases po <;> (intro hr; cases hr; exact ⟨rfl, rfl⟩)
  | failed et =>
    cases env.parserOutcome with
    | none => intro hr; cases hr; exact ⟨rfl, rfl⟩
    | some po => cases po <;> (intro hr; cases hr; exact ⟨rfl, rfl⟩)
  | success =>
    cases env.parserOutcome with
    | none => intro hr; cases hr; exact ⟨rfl, rfl⟩
    | some po => cases po <;> (intro hr; cases hr; exact ⟨rfl, rfl⟩)

theorem runV2_completed_fills (env : ssh.RunEnv) (h : env.clientNil = false)
    (hc : env.ctxCancelledAtAcquire = false) (hn : env.newSessionErr = none)
    (hp : env.ptyErr = none) (h1 : env.stdoutPipeErr = none)
    (h2 : env.stderrPipeErr = none) (h3 : env.stdinPipeErr = none)
    (hs : env.startErr = none) (hw : env.waitOutcome ≠ ssh.WaitOutcome.cancelled) :
    ∀ r, (ssh.runV2 env).result = some r →
      r.Stdout = env.stdoutCaptured ∧ r.Stderr = env.stderrCaptured := by
  intro r hr
  unfold ssh.runV2 at hr
  simp only [h, hc, hn, hp, h1, h2, h3, hs, Bool.false_eq_true, if_false, ite_self,
    ssh.applyParser] at hr
  revert hr
  cases hwo : env.waitOutcome with
  | cancelled => exact absurd hwo hw
  | exited code et =>
    cases env.parserOutcome with
    | none => intro hr; cases hr; exact ⟨rfl, rfl⟩
    | some po => cases po <;> (intro hr; cases hr; exact ⟨rfl, rfl⟩)
  | failed et =>
    cases env.parserOutcome with
    | none => intro hr; cases hr; exact ⟨rfl, rfl⟩
    | some po => cases po <;> (intro hr; cases hr; exact ⟨rfl, rfl⟩)
  | success =>
    cases env.parserOutcome with
    | none => intro hr; cases hr; exact ⟨rfl, rfl⟩
    | some po => cases po <;> (intro hr; cases hr; exact ⟨rfl, rfl⟩)

/-- C2 (amended): for every failing Run with an open client the returned
RawResult is non-nil — except that the second draft returns nil when the
context is already cancelled during limiter acquisition — and on every
completed-wait path (success, remote exit error, or any other wait error)
both drafts carry the captured stdout/stderr in the result; the
cancellation-during-wait path does not copy the capture buffers. -/
theorem C2_result_amended (env : ssh.RunEnv) (h : env.clientNil = false) :
    (ssh.runV1 env).result.isSome = true ∧
    (env.ctxCancelledAtAcquire = false → (ssh.runV2 env).result.isSome = true) ∧
    (∀ r, env.ctxCancelledAtAcquire = false → env.newSessionErr = none →
      env.ptyErr = none → env.stdoutPipeErr = none → env.stderrPipeErr = none →
      env.stdinPipeErr = none → env.startErr = none →
      env.waitOutcome ≠ ssh.WaitOutcome.cancelled →
      ((ssh.runV1 env).result = some r ∨ (ssh.runV2 env).result = some r) →
      r.Stdout = env.stdoutCaptured ∧ r.Stderr = env.stderrCaptured) := by
  refine ⟨?_, ?_, ?_⟩
  · unfold ssh.runV1
    simp only [h, Bool.false_eq_true, if_false]
    repeat first
      | rfl
      | split
  · intro hc
    unfold ssh.runV2
    simp only [h, hc, Bool.false_eq_true, if_false]
    repeat first
      | rfl
      | split
  · intro r hc hn hp h1 h2 h3 hs hw hres
    rcases hres with hres | hres
    · exact runV1_completed_fills env h hc hn hp h1 h2 h3 hs hw r hres
    · exact runV2_completed_fills env h hc hn hp h1 h2 h3 hs hw r hres

/-- C2 witness: the amended theorem at a concrete completed run with exit
status 1 and captured stderr `" x "`. -/
theorem C2_result_amended_witness :
    (ssh.runV1 exitWithStderrEnv).result.isSome = true ∧
    (ssh.runV2 exitWithStderrEnv).result.isSome = true ∧
    (({ Command := "false", Stdout := "", Stderr := " x ", ExitCode := 1,
        Err := some "remote command failed (general error):  x : Process exited with status 1" }
      : RawResult).Stdout = exitWithStderrEnv.stdoutCaptured ∧
     ({ Command := "false", Stdout := "", Stderr := " x ", ExitCode := 1,
        Err := some "remote command failed (general error):  x : Process exited with status 1" }
      : RawResult).Stderr = exitWithStderrEnv.stderrCaptured) :=
  ⟨(C2_result_amended exitWithStderrEnv rfl).1,
   (C2_result_amended exitWithStderrEnv rfl).2.1 rfl,
   (C2_result_amended exitWithStderrEnv rfl).2.2
     { Command := "false", Stdout := "", Stderr := " x ", ExitCode := 1,
       Err := some "remote command failed (general error):  x : Process exited with status 1" }
     rfl rfl rfl rfl rfl rfl rfl (by decide) (Or.inl (by decide))⟩

/-- C6, counterexample: on a remote exit with status 1 and captured stderr
`" x "`, the SSH engine's error message embeds the stderr verbatim (with its
surrounding whitespace), not the trimmed/truncated form claimed. -/
theorem C6_counterexample :
    ((ssh.runV1 exitWithStderrEnv).result.bind RawResult.Err)
      = some "remote command failed (general error):  x : Process exited with status 1" ∧
    ((ssh.runV1 exitWithStderrEnv).result.bind RawResult.Err)
      ≠ some ("remote command failed (" ++ utils.Lookup 1 ++ "): "
        ++ localTrimTrunc " x " ++ ": " ++ "Process exited with status 1") := by
  exact ⟨by decide, by decide⟩

/-- C6 (amended): on a remote exit error the SSH engine sets ExitCode to the
remote status and Err to a message carrying the mapped exit-code description
and the captured stderr verbatim — the trimming and 200-character truncation
happen only in the local engine. -/
theorem C6_exit_message_amended (env : ssh.RunEnv) (code : Int) (et : String)
    (h : env.clientNil = false) (hc : env.ctxCancelledAtAcquire = false)
    (hn : env.newSessionErr = none) (hp : env.ptyErr = none)
    (h1 : env.stdoutPipeErr = none) (h2 : env.stderrPipeErr = none)
    (h3 : env.stdinPipeErr = none) (hs : env.startErr = none)
    (hw : env.waitOutcome = .exited code et) (hpar : env.parserOutcome = none) :
    ∃ r, (ssh.runV1 env).result = some r ∧ r.ExitCode = code ∧
      r.Err = some ("remote command failed (" ++ utils.Lookup code ++ "): "
        ++ env.stderrCaptured ++ ": " ++ et) := by
  unfold ssh.runV1
  simp only [h, hc, hn, hp, h1, h2, h3, hs, hw, hpar, Bool.false_eq_true, if_false,
    ite_self, ssh.applyParser]
  exact ⟨_, rfl, rfl, rfl⟩

/-- C6 witness: the amended theorem at the concrete exit-with-stderr run. -/
theorem C6_exit_message_amended_witness :
    ((ssh.runV1 exitWithStderrEnv).result.bind RawResult.Err)
      = some ("remote command failed (" ++ utils.Lookup 1 ++ "): "
        ++ " x " ++ ": " ++ "Process exited with status 1") := by
  obtain ⟨r, hr, hcode, herr⟩ := C6_exit_message_amended exitWithStderrEnv 1
    "Process exited with status 1" rfl rfl rfl rfl rfl rfl rfl rfl rfl rfl
  rw [hr]
  simpa using herr

/-- C8: `requiresPTY` is true iff the rendered command contains one of the
six keywords as a plain substring, and — once a session has been opened —
Run requests a PTY exactly when `requiresPTY` returns true for the
command's rendered text. -/
theorem C8_requiresPTY_iff :
    (∀ s : String, ssh.requiresPTY s = true ↔
      ∃ k ∈ ssh.ptyKeywords, k.data <:+: s.data) ∧
    (∀ env : ssh.RunEnv, env.clientNil = false → env.ctxCancelledAtAcquire = false →
      env.newSessionErr = none →
      (ssh.runV1 env).ptyRequested = ssh.requiresPTY env.cmdStr) := by
  constructor
  · intro s
    simp [ssh.requiresPTY, ssh.goContains, List.any_eq_true, decide_eq_true_eq]
  · intro env h hc hn
    unfold ssh.runV1
    simp only [h, hc, hn, Bool.false_eq_true, if_false]
    repeat first
      | rfl
      | split

/-- C8 witness: the characterisation at `"sudo ls"` and the PTY decision of
a concrete run. -/
theorem C8_requiresPTY_iff_witness :
    ssh.requiresPTY "sudo ls" = true ∧
    (ssh.runV1 cancelledWaitEnv).ptyRequested = ssh.requiresPTY "sleep 100" :=
  ⟨(C8_requiresPTY_iff.1 "sudo ls").mpr ⟨"sudo", by decide, by decide⟩,
   C8_requiresPTY_iff.2 cancelledWaitEnv rfl rfl rfl⟩

theorem goOct4_spec :
    ∀ n, n < 512 → (goOct4 n).length = 4 ∧ ofOctChars (goOct4 n) = n := by decide

/-- C9: on the success path, `sendFile` writes exactly the header
`C<mode> <size> <filename>\n` — the mode being the four-octal-digit rendering
of the permission bits — followed by the content bytes and the single zero
end-of-file byte; `readAck` accepts a zero status byte and turns a non-zero
byte into an error carrying the rest of the line, trimmed. -/
theorem C9_scp_protocol (fs : String → Option (List Char)) (spec : FileSpec)
    (src : ContentSource) (size : Int) (bytes : List Char)
    (hras : ReaderAndSize fs spec.Content = .ok (src, size, bytes))
    (rest : List Char) :
    ssh.sendFile fs none spec (Char.ofNat 0 :: Char.ofNat 0 :: rest)
      = .ok (ssh.scpHeader spec.Mode size spec.Filename ++ bytes ++ [Char.ofNat 0], rest) ∧
    ssh.scpHeader spec.Mode size spec.Filename
      = 'C' :: (goOct4 (spec.Mode % 512) ++ [' '] ++ goIntDec size ++ [' ']
        ++ spec.Filename.data ++ ['\n']) ∧
    (goOct4 (spec.Mode % 512)).length = 4 ∧
    ofOctChars (goOct4 (spec.Mode % 512)) = spec.Mode % 512 ∧
    (∀ rest2, ssh.readAck none (Char.ofNat 0 :: rest2) = .ok rest2) ∧
    (∀ b rest2, b ≠ Char.ofNat 0 →
      ssh.readAck none (b :: rest2)
        = .error ("scp error: " ++ goTrimSpace (String.mk (ssh.takeLine rest2)))) := by
  obtain ⟨hlen, hval⟩ := goOct4_spec (spec.Mode % 512) (Nat.mod_lt _ (by decide))
  refine ⟨?_, rfl, hlen, hval, ?_, ?_⟩
  · unfold ssh.sendFile
    rw [hras]
    simp [ssh.readAck]
  · intro rest2
    simp [ssh.readAck]
  · intro b rest2 hb
    simp [ssh.readAck, hb]

/-- C9 witness: the protocol theorem at a concrete spec and ACK stream. -/
theorem C9_scp_protocol_witness :
    ssh.sendFile (fun _ => none) none scpSpecExample (Char.ofNat 0 :: Char.ofNat 0 :: [])
      = .ok (ssh.scpHeader scpSpecExample.Mode 2 scpSpecExample.Filename
        ++ ['h', 'i'] ++ [Char.ofNat 0], []) ∧
    (goOct4 (scpSpecExample.Mode % 512)).length = 4 :=
  ⟨(C9_scp_protocol (fun _ => none) scpSpecExample .fromData 2 ['h', 'i'] rfl []).1,
   (C9_scp_protocol (fun _ => none) scpSpecExample .fromData 2 ['h', 'i'] rfl []).2.2.1⟩

/-- C10: a FileSpec whose content has more than one source field set still
validates (only filename, target directory and one non-empty source are
required), and `ReaderAndSize` picks the source by fixed priority: in-memory
data first, then the source path, then the reader. -/
theorem C10_content_priority (t : FileSpec) (c : FileContent)
    (hc : t.Content = some c) (hf : t.Filename ≠ "") (hd : t.TargetDir ≠ "")
    (hmulti : 2 ≤ (if c.data ≠ [] then 1 else 0) + (if c.sourcePath ≠ "" then 1 else 0)
      + (if c.reader.isSome then 1 else 0)) :
    Validate (some t) = .ok () ∧
    (∀ fs, c.data ≠ [] →
      ReaderAndSize fs (some c) = .ok (.fromData, (c.data.length : Int), c.data)) ∧
    (∀ fs, c.data = [] → c.sourcePath ≠ "" →
      ReaderAndSize fs (some c) = (match fs c.sourcePath with
        | some contents => .ok (.fromPath, (contents.length : Int), contents)
        | none => .error "open source file")) ∧
    (∀ fs r, c.data = [] → c.sourcePath = "" → c.reader = some r → r.seekable = true →
      r.seekErr = none →
      ReaderAndSize fs (some c) = .ok (.fromReader, r.endPos - r.cur, r.bytes)) := by
  refine ⟨?_, ?_, ?_, ?_⟩
  · have hne : ¬(c.data.length = 0 ∧ c.sourcePath = "" ∧ c.reader.isNone = true) := by
      rintro ⟨e1, e2, e3⟩
      rw [List.length_eq_zero] at e1
      rw [Option.isNone_iff_eq_none] at e3
      simp [e1, e2, e3] at hmulti
    simp only [Validate, hc]
    rw [if_neg hf, if_neg hd, if_neg ?hcond]
    case hcond =>
      simp only [Bool.and_eq_true, decide_eq_true_eq]
      intro hh
      exact hne ⟨hh.1.1, hh.1.2, hh.2⟩
  · intro fs hne1
    have hlen : c.data.length > 0 := List.length_pos.mpr hne1
    simp [ReaderAndSize, hlen]
  · intro fs he hp
    simp only [ReaderAndSize, he]
    rw [if_neg (by simp), if_pos hp]
  · intro fs r he hp hr hs hse
    simp only [ReaderAndSize, he, hr]
    rw [if_neg (by simp), if_neg (by simp [hp])]
    simp [hs, hse]

/-- C10 witness: the theorem at a spec with both data and a source path set. -/
theorem C10_content_priority_witness :
    Validate (some dualContentSpec) = .ok () ∧
    ReaderAndSize (fun _ => some ['x']) dualContentSpec.Content
      = .ok (.fromData, 2, ['h', 'i']) := by
  have h := C10_content_priority dualContentSpec
    { reader := none, data := ['h', 'i'], sourcePath := "/src/hello.txt" }
    rfl (by decide) (by decide) (by decide)
  exact ⟨h.1, h.2.1 (fun _ => some ['x']) (by decide)⟩

end Rexec
